import Mathlib

/-!
Shallow embedding of the PixelSocket WebSocket client (pixel_socket.ts).

The repository contains two classes named PixelSocket:
* the primary class (zstd + MessagePack binary pipeline); its handlers are
  embedded below as onOpen, onClose, handleMessage, processImage,
  scheduleReconnect, pingTick, disconnect;
* the legacy class (JSON / base64 text pipeline); its close handler, image
  processing and save routine are embedded with a legacy prefix.

Class fields become fields of the Client structure; callback invocations,
timer operations, sends and file writes are recorded as an ordered effect
list, so happens-before claims become statements about list order.
JavaScript falsy string options (undefined or empty saveDirectory) are
modelled as Option.none; the pending setTimeout handle is modelled as the
armed delay (Option Nat).
-/

namespace PixelSocket

/-- Connection statistics record (types.ts, ConnectionStats); the
connectedAt Date is modelled as an epoch-milliseconds value. -/
structure ConnectionStats where
  imagesReceived : Nat
  bytesReceived : Nat
  connectedAt : Option Nat
  isConnected : Bool
  reconnectAttempts : Nat
  deriving Repr, DecidableEq

/-- Stats value set up in the constructor. -/
def initialStats : ConnectionStats :=
  { imagesReceived := 0, bytesReceived := 0, connectedAt := none
  , isConnected := false, reconnectAttempts := 0 }

/-- Configuration options after the constructor fills the defaults
(types.ts, PixelSocketOptions; callbacks are tracked as effects). -/
structure Options where
  autoReconnect : Bool
  reconnectDelay : Nat
  maxReconnectAttempts : Nat
  saveDirectory : Option String
  deriving Repr, DecidableEq

/-- NotificationFromPixelSocket payload (types.ts); blobData none models
the null case (image stored externally). -/
structure Payload where
  jobId : String
  blobData : Option (List Nat)
  imageLength : Nat
  fileExtension : String
  mimeType : String
  timestamp : Nat
  deriving Repr, DecidableEq

/-- Outcome of decompressAndUnpack on a binary frame: the zstd and
MessagePack layers are external libraries, so a frame is modelled by
whether the two decode stages succeed and, when they do, by the decoded
top-level type discriminator and the payload field the code casts to
NotificationFromPixelSocket. -/
inductive DecodeResult
  | failure
  | ok (type : String) (payload : Payload)
  deriving Repr, DecidableEq

/-- Observable actions, in program order: callback invocations, console
logging without a callback, timer arming and cancellation, socket sends
and closes, the stats mutation point, directory creation and file
writes, an internal this.connect() invocation, and a synchronous rethrow
out of connect(). -/
inductive Effect
  | statsUpdate
  | onConnectCb
  | onDisconnectCb (code : Nat) (reason : String)
  | onErrorCb (msg : String)
  | onImageCb
  | logOnly (msg : String)
  | sendText (s : String)
  | mkdir (dir : String)
  | fileWrite (path : String) (bytes : List Nat)
  | cancelReconnectTimer
  | attemptIncrement
  | armReconnectTimer (delay : Nat)
  | startPing (intervalMs : Nat)
  | cancelPing
  | connectCall
  | socketClose
  | throwOut
  deriving Repr, DecidableEq

/-- Client state mirroring the primary class fields: options, stats, the
pending reconnect timer (armed delay), whether the ping interval is
running, the shouldReconnect stop flag, whether this.socket is non-null,
and whether its readyState is OPEN. -/
structure Client where
  options : Options
  stats : ConnectionStats
  reconnectTimeout : Option Nat
  pingActive : Bool
  shouldReconnect : Bool
  socketPresent : Bool
  socketOpen : Bool
  deriving Repr, DecidableEq

/-- JSON text of the subscription handshake sent on open. -/
def subscribeMessage : String := "\x7b\"type\":\"subscribe\",\"mode\":\"all\"\x7d"

/-- JSON text of the keepalive ping frame. -/
def pingMessage : String := "\x7b\"type\":\"ping\"\x7d"

/-- Delay chosen by the primary scheduleReconnect: the configured base
delay while the post-increment counter is at or below the maximum,
otherwise the fixed 60000 ms fallback. -/
def reconnectDelayFor (c : Client) : Nat :=
  if c.stats.reconnectAttempts + 1 ≤ c.options.maxReconnectAttempts then
    c.options.reconnectDelay
  else
    60000

/-- Primary scheduleReconnect (part_000 lines 566-591): cancel a pending
timer, increment the attempt counter, then arm the timer with the
computed delay. -/
def scheduleReconnect (c : Client) : Client × List Effect :=
  ({ c with
      stats := { c.stats with reconnectAttempts := c.stats.reconnectAttempts + 1 }
      reconnectTimeout := some (reconnectDelayFor c) },
    (if c.reconnectTimeout.isSome then [Effect.cancelReconnectTimer] else []) ++
      [Effect.attemptIncrement, Effect.armReconnectTimer (reconnectDelayFor c)])

/-- Primary onopen handler (part_000 lines 449-466): mark connected,
record the time, reset the attempt counter, send the subscription
handshake, start the 20 s ping interval (clearing a previous one), then
invoke onConnect. -/
def onOpen (c : Client) (now : Nat) : Client × List Effect :=
  ({ c with
      stats := { c.stats with
        isConnected := true, connectedAt := some now, reconnectAttempts := 0 }
      pingActive := true
      socketPresent := true
      socketOpen := true },
    [Effect.sendText subscribeMessage] ++
      (if c.pingActive then [Effect.cancelPing] else []) ++
      [Effect.startPing 20000, Effect.onConnectCb])

/-- Primary onclose handler (part_000 lines 480-490): mark disconnected,
invoke onDisconnect, and schedule a reconnect whenever shouldReconnect
and autoReconnect hold (no bound on the attempt counter). -/
def onClose (c : Client) (code : Nat) (reason : String) : Client × List Effect :=
  let c1 := { c with socketOpen := false, stats := { c.stats with isConnected := false } }
  if c1.shouldReconnect && c1.options.autoReconnect then
    ((scheduleReconnect c1).1, Effect.onDisconnectCb code reason :: (scheduleReconnect c1).2)
  else
    (c1, [Effect.onDisconnectCb code reason])

/-- Primary processImage (part_000 lines 532-561): the stats are mutated
first; then, when a save directory is configured and blobData is
present, the directory is created and the file written as
timestamp_jobId.fileExtension, a zero payload timestamp falling back to
the current time; a failure inside the save block invokes onError. The
caller image callback is never invoked here. -/
def processImage (c : Client) (now : Nat) (writeOk : Bool) (p : Payload) :
    Client × List Effect :=
  let c1 := { c with
    stats := { c.stats with
      imagesReceived := c.stats.imagesReceived + 1
      bytesReceived := c.stats.bytesReceived + p.imageLength } }
  match c1.options.saveDirectory, p.blobData with
  | some dir, some blob =>
      let ts := if p.timestamp ≠ 0 then p.timestamp else now
      let filename := toString ts ++ "_" ++ p.jobId ++ "." ++ p.fileExtension
      if writeOk then
        (c1, [Effect.statsUpdate, Effect.mkdir dir,
              Effect.fileWrite (dir ++ "/" ++ filename) blob])
      else
        (c1, [Effect.statsUpdate, Effect.mkdir dir,
              Effect.onErrorCb "Failed to save image"])
  | _, _ => (c1, [Effect.statsUpdate])

/-- Primary handleMessage on a binary frame (part_000 lines 503-527): a
decode failure is logged and the frame dropped with no callback and no
state change; a decoded object is processed only when its type
discriminator matches. -/
def handleMessage (c : Client) (now : Nat) (writeOk : Bool) (d : DecodeResult) :
    Client × List Effect :=
  match d with
  | DecodeResult.failure =>
      (c, [Effect.logOnly "Failed to decompress or unpack message"])
  | DecodeResult.ok t p =>
      if t = "notification-from-pixel-socket" then processImage c now writeOk p
      else (c, [])

/-- One tick of the 20 s ping interval (part_000 lines 596-612): only an
active interval fires; the ping is sent only when the socket is present
and OPEN; a send failure is logged and nothing else happens. -/
def pingTick (c : Client) (sendOk : Bool) : Client × List Effect :=
  if c.pingActive then
    if c.socketPresent && c.socketOpen then
      if sendOk then (c, [Effect.sendText pingMessage])
      else (c, [Effect.sendText pingMessage, Effect.logOnly "Error sending ping"])
    else (c, [])
  else (c, [])

/-- Primary disconnect (part_000 lines 627-642): clear the stop flag,
cancel a pending reconnect timer, cancel the ping interval, close and
null the socket, and mark disconnected. It never throws. -/
def disconnect (c : Client) : Client × List Effect :=
  ({ c with
      shouldReconnect := false
      reconnectTimeout := none
      pingActive := false
      socketPresent := false
      socketOpen := false
      stats := { c.stats with isConnected := false } },
    (if c.reconnectTimeout.isSome then [Effect.cancelReconnectTimer] else []) ++
      (if c.pingActive then [Effect.cancelPing] else []) ++
      (if c.socketPresent then [Effect.socketClose] else []))

/-- Synchronous part of connect() (part_000 lines 443-498): opening the
transport may throw, in which case the catch block invokes onError and
rethrows (the sole propagating error); otherwise a socket is created and
the handlers registered. connect never touches shouldReconnect. -/
def connectCall (c : Client) (openThrows : Bool) : Client × List Effect :=
  if openThrows then
    (c, [Effect.onErrorCb "Failed to connect", Effect.throwOut])
  else
    ({ c with socketPresent := true, socketOpen := false }, [])

/-- Primary onerror handler (part_000 lines 472-478): build a
descriptive message — the JS falsy check replacing an empty event
message with "Unknown error" — log the error and report it via onError;
connection state does not change here. -/
def onSocketError (c : Client) (msg : String) : Client × List Effect :=
  let txt := "WebSocket error: " ++ (if msg = "" then "Unknown error" else msg)
  (c, [Effect.logOnly txt, Effect.onErrorCb txt])

/-- External events driving the primary client: a connect() invocation
(with whether transport creation throws), the transport open, error and
close signals, an inbound binary frame (with the decode outcome and
whether a file write would succeed), a ping-interval tick, the reconnect
timer firing, and a disconnect() invocation. -/
inductive Event
  | connectCalled (openThrows : Bool)
  | transportOpen (now : Nat)
  | transportError (msg : String)
  | transportClose (code : Nat) (reason : String)
  | message (now : Nat) (writeOk : Bool) (d : DecodeResult)
  | pingTick (sendOk : Bool)
  | reconnectFire
  | disconnectCalled
  deriving Repr, DecidableEq

/-- Single event step of the primary client. A cleared timer never
fires, so reconnectFire with no pending timer is a no-op. -/
def step (c : Client) : Event → Client × List Effect
  | Event.connectCalled t => connectCall c t
  | Event.transportOpen now => onOpen c now
  | Event.transportError msg => onSocketError c msg
  | Event.transportClose code reason => onClose c code reason
  | Event.message now wOk d => handleMessage c now wOk d
  | Event.pingTick sOk => pingTick c sOk
  | Event.reconnectFire =>
      match c.reconnectTimeout with
      | some _ => ({ c with reconnectTimeout := none }, [Effect.connectCall])
      | none => (c, [])
  | Event.disconnectCalled => disconnect c

/-- Run a sequence of events, concatenating the emitted effects. -/
def run (c : Client) : List Event → Client × List Effect
  | [] => (c, [])
  | e :: es =>
      ((run (step c e).1 es).1, (step c e).2 ++ (run (step c e).1 es).2)

/-- Bool test for a reconnect-timer arming effect. -/
def isArmTimer : Effect → Bool
  | Effect.armReconnectTimer _ => true
  | _ => false

/-- Bool test for an onError callback effect. -/
def isOnErrorCb : Effect → Bool
  | Effect.onErrorCb _ => true
  | _ => false

/-- Number of reconnect-timer armings in an effect list. -/
def armCount (fx : List Effect) : Nat := fx.countP fun e => isArmTimer e

/-- Number of onError callback invocations in an effect list. -/
def onErrorCount (fx : List Effect) : Nat := fx.countP fun e => isOnErrorCb e

/-- Image metadata of the legacy class as used by its save routine
(types file of the legacy era): the resolved timestamp in epoch
milliseconds and the optional declared format, none modelling a missing
or empty (falsy) format string. -/
structure ImageMetadata where
  timestamp : Nat
  format : Option String
  deriving Repr, DecidableEq

/-- Legacy detectImageFormat (part_000 lines 263-284): magic-byte
sniffing over the first four bytes; reading past the end of the data
yields the JS undefined, modelled as 256, which matches no byte value. -/
def detectImageFormat (data : List Nat) : String :=
  if data.getD 0 256 = 0xFF ∧ data.getD 1 256 = 0xD8 ∧ data.getD 2 256 = 0xFF then
    "jpg"
  else if data.getD 0 256 = 0x89 ∧ data.getD 1 256 = 0x50 ∧ data.getD 2 256 = 0x4E ∧
      data.getD 3 256 = 0x47 then
    "png"
  else if data.getD 0 256 = 0x52 ∧ data.getD 1 256 = 0x49 ∧ data.getD 2 256 = 0x46 ∧
      data.getD 3 256 = 0x46 then
    "webp"
  else if data.getD 0 256 = 0x47 ∧ data.getD 1 256 = 0x49 ∧ data.getD 2 256 = 0x46 then
    "gif"
  else
    "bin"

/-- Legacy saveImage (part_000 lines 235-258): create the directory,
name the file timestamp.format with the format falling back to
magic-byte sniffing, and write; a failure in the block invokes
onError. -/
def legacySaveImage (dir : String) (writeOk : Bool) (imageData : List Nat)
    (m : ImageMetadata) : List Effect :=
  let format := m.format.getD (detectImageFormat imageData)
  let filename := toString m.timestamp ++ "." ++ format
  if writeOk then
    [Effect.mkdir dir, Effect.fileWrite (dir ++ "/" ++ filename) imageData]
  else
    [Effect.mkdir dir, Effect.onErrorCb "Failed to save image"]

/-- Legacy processImage (part_000 lines 207-230): mutate the stats
(bytes by the actual data length), invoke the caller's onImage callback,
then save when a directory is configured. -/
def legacyProcessImage (c : Client) (writeOk : Bool) (imageData : List Nat)
    (m : ImageMetadata) : Client × List Effect :=
  let c1 := { c with
    stats := { c.stats with
      imagesReceived := c.stats.imagesReceived + 1
      bytesReceived := c.stats.bytesReceived + imageData.length } }
  match c1.options.saveDirectory with
  | some dir =>
      (c1, Effect.statsUpdate :: Effect.onImageCb :: legacySaveImage dir writeOk imageData m)
  | none => (c1, [Effect.statsUpdate, Effect.onImageCb])

/-- Legacy scheduleReconnect (part_000 lines 317-332): cancel a pending
timer, increment the counter, and always arm with the configured base
delay (no 60 s fallback here). -/
def legacyScheduleReconnect (c : Client) : Client × List Effect :=
  ({ c with
      stats := { c.stats with reconnectAttempts := c.stats.reconnectAttempts + 1 }
      reconnectTimeout := some c.options.reconnectDelay },
    (if c.reconnectTimeout.isSome then [Effect.cancelReconnectTimer] else []) ++
      [Effect.attemptIncrement, Effect.armReconnectTimer c.options.reconnectDelay])

/-- Legacy onclose handler (part_000 lines 80-94): mark disconnected,
invoke onDisconnect, and schedule a reconnect only while the attempt
counter is strictly below maxReconnectAttempts. -/
def legacyOnClose (c : Client) (code : Nat) (reason : String) : Client × List Effect :=
  let c1 := { c with socketOpen := false, stats := { c.stats with isConnected := false } }
  if c1.shouldReconnect && c1.options.autoReconnect &&
      decide (c1.stats.reconnectAttempts < c1.options.maxReconnectAttempts) then
    ((legacyScheduleReconnect c1).1,
      Effect.onDisconnectCb code reason :: (legacyScheduleReconnect c1).2)
  else
    (c1, [Effect.onDisconnectCb code reason])

/-! Heap model for getStats: the JS object spread in
`return { ...this.stats }` allocates a fresh object carrying copies of
the field values. Objects live in a memory indexed by reference numbers;
`next` is the next fresh reference and internalRef the reference of
this.stats. -/

/-- Pointwise memory update at one reference. -/
def upd (m : Nat → ConnectionStats) (r : Nat) (v : ConnectionStats) :
    Nat → ConnectionStats :=
  fun i => if i = r then v else m i

/-- Object memory holding ConnectionStats records. -/
structure StatsHeap where
  mem : Nat → ConnectionStats
  next : Nat
  internalRef : Nat

/-- getStats (part_000 lines 647-649): allocate a fresh object whose
fields copy the internal stats object, and hand its reference to the
caller. -/
def getStats (h : StatsHeap) : StatsHeap × Nat :=
  ({ mem := upd h.mem h.next (h.mem h.internalRef)
     next := h.next + 1
     internalRef := h.internalRef },
   h.next)

/-- Mutation of one field of the object behind a reference, as a caller
or the client itself would perform it. -/
def writeRef (h : StatsHeap) (r : Nat) (f : ConnectionStats → ConnectionStats) :
    StatsHeap :=
  { h with mem := upd h.mem r (f (h.mem r)) }

/-- Read the object behind a reference. -/
def readRef (h : StatsHeap) (r : Nat) : ConnectionStats := h.mem r

/-- Bool test for the stats mutation point. -/
def isStatsUpdate : Effect → Bool
  | Effect.statsUpdate => true
  | _ => false

/-- Number of stats mutations in an effect list. -/
def statsUpdateCount (fx : List Effect) : Nat := fx.countP fun e => isStatsUpdate e

/-- Options record as the constructor defaults fill it for the primary
class. -/
def sampleOptions : Options :=
  { autoReconnect := true, reconnectDelay := 5000, maxReconnectAttempts := 10
  , saveDirectory := some "./received_images" }

/-- A connected primary client with default options. -/
def sampleClient : Client :=
  { options := sampleOptions, stats := initialStats, reconnectTimeout := none
  , pingActive := true, shouldReconnect := true, socketPresent := true
  , socketOpen := true }

/-- A concrete notification payload carrying three bytes of image data
and a declared length of 100. -/
def samplePayload : Payload :=
  { jobId := "abc", blobData := some [1, 2, 3], imageLength := 100
  , fileExtension := "png", mimeType := "image/png", timestamp := 1000 }

/-- Claim C2: a binary frame whose decompression or deserialization
fails leaves imagesReceived and bytesReceived unchanged (the frame is
dropped), as does a decoded frame whose type discriminator does not
match; every frame that yields a successfully extracted payload
increments imagesReceived by exactly 1 and accumulates bytesReceived
exactly once — exactly one stats mutation per extracted payload, never
per raw frame. -/
theorem C2_stats_change_per_extracted_payload
    (c : Client) (now : Nat) (wOk : Bool) (p : Payload) (t : String)
    (ht : t ≠ "notification-from-pixel-socket") :
    (handleMessage c now wOk DecodeResult.failure).1.stats = c.stats ∧
    (handleMessage c now wOk (DecodeResult.ok t p)).1.stats = c.stats ∧
    (handleMessage c now wOk
        (DecodeResult.ok "notification-from-pixel-socket" p)).1.stats.imagesReceived
      = c.stats.imagesReceived + 1 ∧
    (handleMessage c now wOk
        (DecodeResult.ok "notification-from-pixel-socket" p)).1.stats.bytesReceived
      = c.stats.bytesReceived + p.imageLength ∧
    statsUpdateCount (handleMessage c now wOk
        (DecodeResult.ok "notification-from-pixel-socket" p)).2 = 1 := by
  refine ⟨rfl, ?_, ?_, ?_, ?_⟩
  · simp [handleMessage, ht]
  all_goals
    rcases hd : c.options.saveDirectory with _ | dir <;> rcases hb : p.blobData with _ | blob <;>
      simp [handleMessage, processImage, statsUpdateCount, isStatsUpdate, hd, hb] <;>
      split <;> simp [List.countP_cons, isStatsUpdate]

/-- Witness for claim C2 at a concrete client, payload and a frame of a
different decoded type. -/
theorem C2_stats_change_per_extracted_payload_witness :
    ("ping" : String) ≠ "notification-from-pixel-socket" ∧
    ((handleMessage sampleClient 0 true DecodeResult.failure).1.stats
        = sampleClient.stats ∧
     (handleMessage sampleClient 0 true
        (DecodeResult.ok "ping" samplePayload)).1.stats = sampleClient.stats ∧
     (handleMessage sampleClient 0 true
        (DecodeResult.ok "notification-from-pixel-socket" samplePayload)).1.stats.imagesReceived
       = sampleClient.stats.imagesReceived + 1 ∧
     (handleMessage sampleClient 0 true
        (DecodeResult.ok "notification-from-pixel-socket" samplePayload)).1.stats.bytesReceived
       = sampleClient.stats.bytesReceived + samplePayload.imageLength ∧
     statsUpdateCount (handleMessage sampleClient 0 true
        (DecodeResult.ok "notification-from-pixel-socket" samplePayload)).2 = 1) :=
  ⟨by decide,
   C2_stats_change_per_extracted_payload sampleClient 0 true samplePayload "ping" (by decide)⟩

/-- Bool test for the synchronous rethrow effect. -/
def isThrowOut : Effect → Bool
  | Effect.throwOut => true
  | _ => false

/-- Number of synchronous rethrows in an effect list. -/
def throwCount (fx : List Effect) : Nat := fx.countP fun e => isThrowOut e

/-- Only a synchronous connect() failure ever rethrows: every other event
handler emits no throw effect. -/
theorem step_throw_only_connect (c : Client) (e : Event) :
    throwCount (step c e).2 = if e = Event.connectCalled true then 1 else 0 := by
  cases e with
  | connectCalled t =>
      cases t <;>
        simp [step, connectCall, throwCount, isThrowOut, List.countP_cons]
  | transportOpen n =>
      simp only [step, onOpen, throwCount]
      split <;>
        simp [List.countP_append, List.countP_cons, isThrowOut]
  | transportError msg =>
      simp [step, onSocketError, throwCount, List.countP_cons, isThrowOut]
  | transportClose code reason =>
      rcases hrt : c.reconnectTimeout with _ | dd <;>
        simp only [step, onClose, scheduleReconnect, hrt] <;>
        split <;>
        simp [throwCount, hrt, List.countP_append, List.countP_cons, isThrowOut]
  | message now wOk d =>
      cases d with
      | failure => simp [step, handleMessage, throwCount, List.countP_cons, isThrowOut]
      | ok t p =>
          simp only [step, handleMessage]
          split
          · rcases hd : c.options.saveDirectory with _ | dir <;>
              rcases hb : p.blobData with _ | blob <;>
                simp [processImage, hd, hb, throwCount, List.countP_cons, isThrowOut] <;>
                  split <;> simp [List.countP_cons, isThrowOut]
          · simp [throwCount]
  | pingTick sOk =>
      simp only [step, pingTick]
      split
      · split
        · split <;> simp [throwCount, List.countP_cons, isThrowOut]
        · simp [throwCount]
      · simp [throwCount]
  | reconnectFire =>
      rcases hrt : c.reconnectTimeout with _ | dd <;>
        simp [step, hrt, throwCount, List.countP_cons, isThrowOut]
  | disconnectCalled =>
      rcases hrt : c.reconnectTimeout with _ | dd <;>
        cases hp : c.pingActive <;> cases hsp : c.socketPresent <;>
        simp [step, disconnect, hrt, hp, hsp, throwCount,
          List.countP_append, List.countP_cons, isThrowOut]

/-- Counterexample to claim C3: a binary frame whose decompression or
deserialization fails is dropped with a console log only — the onError
callback is never invoked for it, so this error kind is not reported to
the caller as the claim states. -/
theorem C3_counterexample_decode_error_not_reported :
    (handleMessage sampleClient 0 true DecodeResult.failure)
      = (sampleClient, [Effect.logOnly "Failed to decompress or unpack message"]) ∧
    onErrorCount (handleMessage sampleClient 0 true DecodeResult.failure).2 = 0 := by
  decide

/-- Claim C3 as amended: a transport error event is caught by the
onerror handler and reported via onError with a descriptive message,
changing no state; a persistence failure is reported via onError with a
descriptive message and changes no connection state; a frame whose
decode fails is dropped with a logged error only — no onError
invocation, no state change, no connection teardown; a ping send
failure is likewise logged only, with no onError report and no state
change; a failure raised synchronously out of connect() is reported via
onError and rethrown and is the only error that propagates out of any
handler. -/
theorem C3_error_boundaries_amended
    (c : Client) (now : Nat) (p : Payload) (dir : String)
    (blob : List Nat) (msg : String) (e : Event)
    (hd : c.options.saveDirectory = some dir) (hb : p.blobData = some blob) :
    (step c (Event.transportError msg)).1 = c ∧
    (step c (Event.transportError msg)).2
      = [Effect.logOnly
           ("WebSocket error: " ++ (if msg = "" then "Unknown error" else msg)),
         Effect.onErrorCb
           ("WebSocket error: " ++ (if msg = "" then "Unknown error" else msg))] ∧
    (handleMessage c now true DecodeResult.failure).1 = c ∧
    (handleMessage c now true DecodeResult.failure).2
      = [Effect.logOnly "Failed to decompress or unpack message"] ∧
    onErrorCount (handleMessage c now true DecodeResult.failure).2 = 0 ∧
    (step c (Event.pingTick false)).1 = c ∧
    onErrorCount (step c (Event.pingTick false)).2 = 0 ∧
    (processImage c now false p).2
      = [Effect.statsUpdate, Effect.mkdir dir, Effect.onErrorCb "Failed to save image"] ∧
    (processImage c now false p).1.stats.isConnected = c.stats.isConnected ∧
    (processImage c now false p).1.socketOpen = c.socketOpen ∧
    (step c (Event.connectCalled true)).2
      = [Effect.onErrorCb "Failed to connect", Effect.throwOut] ∧
    (step c (Event.connectCalled true)).1 = c ∧
    throwCount (step c e).2 = (if e = Event.connectCalled true then 1 else 0) := by
  refine ⟨rfl, rfl, rfl, rfl, rfl, ?_, ?_, ?_, ?_, ?_, ?_, ?_,
    step_throw_only_connect c e⟩
  · cases hp : c.pingActive <;> cases hsp : c.socketPresent <;>
      cases hso : c.socketOpen <;> simp [step, pingTick, hp, hsp, hso]
  · cases hp : c.pingActive <;> cases hsp : c.socketPresent <;>
      cases hso : c.socketOpen <;>
      simp [step, pingTick, hp, hsp, hso, onErrorCount, isOnErrorCb, List.countP_cons]
  · simp [processImage, hd, hb]
  · simp [processImage, hd, hb]
  · simp [processImage, hd, hb]
  · simp [step, connectCall]
  · simp [step, connectCall]

/-- Witness for the amended claim C3 at a concrete client, payload, an
empty transport error message and a disconnect event. -/
theorem C3_error_boundaries_amended_witness :
    (step sampleClient (Event.transportError "")).1 = sampleClient ∧
    (step sampleClient (Event.transportError "")).2
      = [Effect.logOnly
           ("WebSocket error: " ++ (if ("" : String) = "" then "Unknown error" else "")),
         Effect.onErrorCb
           ("WebSocket error: " ++ (if ("" : String) = "" then "Unknown error" else ""))] ∧
    (handleMessage sampleClient 0 true DecodeResult.failure).1 = sampleClient ∧
    (handleMessage sampleClient 0 true DecodeResult.failure).2
      = [Effect.logOnly "Failed to decompress or unpack message"] ∧
    onErrorCount (handleMessage sampleClient 0 true DecodeResult.failure).2 = 0 ∧
    (step sampleClient (Event.pingTick false)).1 = sampleClient ∧
    onErrorCount (step sampleClient (Event.pingTick false)).2 = 0 ∧
    (processImage sampleClient 0 false samplePayload).2
      = [Effect.statsUpdate, Effect.mkdir "./received_images",
         Effect.onErrorCb "Failed to save image"] ∧
    (processImage sampleClient 0 false samplePayload).1.stats.isConnected
      = sampleClient.stats.isConnected ∧
    (processImage sampleClient 0 false samplePayload).1.socketOpen
      = sampleClient.socketOpen ∧
    (step sampleClient (Event.connectCalled true)).2
      = [Effect.onErrorCb "Failed to connect", Effect.throwOut] ∧
    (step sampleClient (Event.connectCalled true)).1 = sampleClient ∧
    throwCount (step sampleClient Event.disconnectCalled).2
      = (if Event.disconnectCalled = Event.connectCalled true then 1 else 0) :=
  C3_error_boundaries_amended sampleClient 0 samplePayload "./received_images"
    [1, 2, 3] "" Event.disconnectCalled rfl rfl

/-- Claim C4, evaluated at the failing input: on the primary path a
successfully extracted payload updates the stats before the persistence
effects, but the caller's image callback is never invoked for it —
against the claim, the README and the constructor's onImageReceived
option; the legacy path does invoke the callback right after the stats
update. -/
theorem C4_primary_path_never_invokes_image_callback :
    (handleMessage sampleClient 0 true
        (DecodeResult.ok "notification-from-pixel-socket" samplePayload)).2
      = [Effect.statsUpdate, Effect.mkdir "./received_images",
         Effect.fileWrite "./received_images/1000_abc.png" [1, 2, 3]] ∧
    Effect.onImageCb ∉ (handleMessage sampleClient 0 true
        (DecodeResult.ok "notification-from-pixel-socket" samplePayload)).2 ∧
    (handleMessage sampleClient 0 true
        (DecodeResult.ok "notification-from-pixel-socket" samplePayload)).2.head?
      = some Effect.statsUpdate ∧
    (legacyProcessImage sampleClient true [1, 2, 3]
        { timestamp := 1000, format := some "png" }).2.take 2
      = [Effect.statsUpdate, Effect.onImageCb] := by
  decide

/-- Counterexample to claim C6: a failing ping send on an open transport
is logged only — the onError callback is never invoked, so the claim
that a ping send failure is reported via onError fails. -/
theorem C6_counterexample_ping_failure_not_reported :
    (pingTick sampleClient false)
      = (sampleClient, [Effect.sendText pingMessage, Effect.logOnly "Error sending ping"]) ∧
    onErrorCount (pingTick sampleClient false).2 = 0 := by
  decide

/-- Claim C6 as amended: on open the keepalive interval is armed at the
fixed 20000 ms; a running interval tick sends the ping frame if and only
if the transport is currently open; a ping send failure is logged but
not reported via onError, and a tick never changes connection state and
never closes the socket. -/
theorem C6_keepalive_amended
    (c : Client) (now : Nat) (sOk : Bool) (hp : c.pingActive = true) :
    Effect.startPing 20000 ∈ (onOpen c now).2 ∧
    (pingTick c sOk).1 = c ∧
    ((Effect.sendText pingMessage ∈ (pingTick c sOk).2)
      ↔ (c.socketPresent && c.socketOpen) = true) ∧
    onErrorCount (pingTick c sOk).2 = 0 ∧
    Effect.socketClose ∉ (pingTick c sOk).2 := by
  refine ⟨?_, ?_, ?_, ?_, ?_⟩
  · simp only [onOpen]
    split <;> simp
  all_goals
    cases hsp : c.socketPresent <;> cases hso : c.socketOpen <;> cases sOk <;>
      simp [pingTick, hp, hsp, hso, onErrorCount, isOnErrorCb,
        List.countP_cons, subscribeMessage, pingMessage]

/-- Witness for the amended claim C6 at a concrete open client with a
failing send. -/
theorem C6_keepalive_amended_witness :
    Effect.startPing 20000 ∈ (onOpen sampleClient 9).2 ∧
    (pingTick sampleClient false).1 = sampleClient ∧
    ((Effect.sendText pingMessage ∈ (pingTick sampleClient false).2)
      ↔ (sampleClient.socketPresent && sampleClient.socketOpen) = true) ∧
    onErrorCount (pingTick sampleClient false).2 = 0 ∧
    Effect.socketClose ∉ (pingTick sampleClient false).2 :=
  C6_keepalive_amended sampleClient 9 false rfl

/-- A legacy client whose attempt counter already equals the configured
maximum of 10, with auto-reconnect on and disconnect() never called. -/
def legacyMaxedClient : Client :=
  { options := sampleOptions
  , stats := { initialStats with reconnectAttempts := 10 }
  , reconnectTimeout := none, pingActive := false
  , shouldReconnect := true, socketPresent := true, socketOpen := true }

/-- Counterexample to claim C1: in the legacy class a transport close
with auto-reconnect enabled and disconnect() never called schedules no
reconnect at all once the attempt counter has reached the configured
maximum — the client stops retrying on its own, against the claim that
a reconnect is always scheduled and attempts continue indefinitely. -/
theorem C1_counterexample_legacy_gives_up :
    legacyMaxedClient.shouldReconnect = true ∧
    legacyMaxedClient.options.autoReconnect = true ∧
    (legacyOnClose legacyMaxedClient 1006 "abnormal").2
      = [Effect.onDisconnectCb 1006 "abnormal"] ∧
    armCount (legacyOnClose legacyMaxedClient 1006 "abnormal").2 = 0 ∧
    (legacyOnClose legacyMaxedClient 1006 "abnormal").1.reconnectTimeout = none := by
  decide

/-- Claim C1 as amended: in the primary class every transport close with
auto-reconnect enabled and disconnect() not called schedules a reconnect
whose delay is the base delay while the incremented counter is at or
below the maximum and the fixed 60000 ms fallback beyond it, the counter
is incremented before the timer is armed, a pending timer is cancelled
first, retrying never stops on its own, and the counter resets to 0 on
each Open transition; in the legacy class a close schedules a reconnect
only while the counter is strictly below the maximum, always with the
base delay, and schedules nothing once the counter has reached the
maximum. -/
theorem C1_reconnect_policy_amended
    (c : Client) (code now : Nat) (reason : String)
    (hs : c.shouldReconnect = true) (ha : c.options.autoReconnect = true) :
    (onClose c code reason).1.stats.reconnectAttempts = c.stats.reconnectAttempts + 1 ∧
    (onClose c code reason).2
      = Effect.onDisconnectCb code reason ::
          ((if c.reconnectTimeout.isSome then [Effect.cancelReconnectTimer] else []) ++
           [Effect.attemptIncrement,
            Effect.armReconnectTimer
              (if c.stats.reconnectAttempts + 1 ≤ c.options.maxReconnectAttempts then
                c.options.reconnectDelay else 60000)]) ∧
    (onClose c code reason).1.shouldReconnect = true ∧
    (onClose c code reason).1.reconnectTimeout.isSome = true ∧
    (onOpen c now).1.stats.reconnectAttempts = 0 ∧
    (c.stats.reconnectAttempts < c.options.maxReconnectAttempts →
        (legacyOnClose c code reason).2
          = Effect.onDisconnectCb code reason ::
              ((if c.reconnectTimeout.isSome then [Effect.cancelReconnectTimer] else []) ++
               [Effect.attemptIncrement,
                Effect.armReconnectTimer c.options.reconnectDelay])) ∧
    (c.options.maxReconnectAttempts ≤ c.stats.reconnectAttempts →
        (legacyOnClose c code reason).2 = [Effect.onDisconnectCb code reason] ∧
        armCount (legacyOnClose c code reason).2 = 0) := by
  refine ⟨?_, ?_, ?_, ?_, ?_, ?_, ?_⟩
  · simp [onClose, scheduleReconnect, hs, ha]
  · simp [onClose, scheduleReconnect, reconnectDelayFor, hs, ha]
  · simp [onClose, scheduleReconnect, hs, ha]
  · simp [onClose, scheduleReconnect, hs, ha]
  · simp [onOpen]
  · intro h
    simp [legacyOnClose, legacyScheduleReconnect, hs, ha, h]
  · intro h
    have h2 : ¬ (c.stats.reconnectAttempts < c.options.maxReconnectAttempts) :=
      Nat.not_lt.mpr h
    simp [legacyOnClose, hs, ha, h2, armCount, List.countP_cons, isArmTimer]

/-- Witness for the amended claim C1 at a concrete connected client with
a zero attempt counter. -/
theorem C1_reconnect_policy_amended_witness :
    (onClose sampleClient 1006 "gone").1.stats.reconnectAttempts
      = sampleClient.stats.reconnectAttempts + 1 ∧
    (onClose sampleClient 1006 "gone").2
      = Effect.onDisconnectCb 1006 "gone" ::
          ((if sampleClient.reconnectTimeout.isSome then [Effect.cancelReconnectTimer] else []) ++
           [Effect.attemptIncrement,
            Effect.armReconnectTimer
              (if sampleClient.stats.reconnectAttempts + 1
                  ≤ sampleClient.options.maxReconnectAttempts then
                sampleClient.options.reconnectDelay else 60000)]) ∧
    (onClose sampleClient 1006 "gone").1.shouldReconnect = true ∧
    (onClose sampleClient 1006 "gone").1.reconnectTimeout.isSome = true ∧
    (onOpen sampleClient 7).1.stats.reconnectAttempts = 0 ∧
    (sampleClient.stats.reconnectAttempts < sampleClient.options.maxReconnectAttempts →
        (legacyOnClose sampleClient 1006 "gone").2
          = Effect.onDisconnectCb 1006 "gone" ::
              ((if sampleClient.reconnectTimeout.isSome then [Effect.cancelReconnectTimer] else []) ++
               [Effect.attemptIncrement,
                Effect.armReconnectTimer sampleClient.options.reconnectDelay])) ∧
    (sampleClient.options.maxReconnectAttempts ≤ sampleClient.stats.reconnectAttempts →
        (legacyOnClose sampleClient 1006 "gone").2 = [Effect.onDisconnectCb 1006 "gone"] ∧
        armCount (legacyOnClose sampleClient 1006 "gone").2 = 0) :=
  C1_reconnect_policy_amended sampleClient 1006 7 "gone" rfl rfl

/-- Bool test for an internal connect() invocation effect. -/
def isConnectCallFx : Effect → Bool
  | Effect.connectCall => true
  | _ => false

/-- Number of internal connect() invocations in an effect list. -/
def connectCallCount (fx : List Effect) : Nat := fx.countP fun e => isConnectCallFx e

/-- Invariant step: once the stop flag is cleared and no reconnect timer
is pending, any event preserves both facts and emits neither an internal
connect() call nor a reconnect-timer arming. -/
theorem stopped_step (c : Client) (e : Event)
    (h1 : c.shouldReconnect = false) (h2 : c.reconnectTimeout = none) :
    (step c e).1.shouldReconnect = false ∧ (step c e).1.reconnectTimeout = none ∧
    connectCallCount (step c e).2 = 0 ∧ armCount (step c e).2 = 0 := by
  cases e with
  | connectCalled t =>
      cases t <;>
        simp [step, connectCall, h1, h2, connectCallCount, armCount,
          isConnectCallFx, isArmTimer, List.countP_cons]
  | transportOpen n =>
      simp only [step, onOpen]
      refine ⟨h1, h2, ?_, ?_⟩ <;>
        (split <;>
          simp [connectCallCount, armCount, isConnectCallFx, isArmTimer,
            List.countP_append, List.countP_cons])
  | transportError msg =>
      simp [step, onSocketError, h1, h2, connectCallCount, armCount,
        isConnectCallFx, isArmTimer, List.countP_cons]
  | transportClose code reason =>
      simp [step, onClose, h1, h2, connectCallCount, armCount,
        isConnectCallFx, isArmTimer, List.countP_cons]
  | message now wOk d =>
      cases d with
      | failure =>
          simp [step, handleMessage, h1, h2, connectCallCount, armCount,
            isConnectCallFx, isArmTimer, List.countP_cons]
      | ok t p =>
          simp only [step, handleMessage]
          split
          · rcases hd : c.options.saveDirectory with _ | dir <;>
              rcases hb : p.blobData with _ | blob <;>
                simp [processImage, hd, hb, h1, h2, connectCallCount, armCount,
                  isConnectCallFx, isArmTimer, List.countP_cons] <;>
                split <;> simp [List.countP_cons, isConnectCallFx, isArmTimer]
          · simp [h1, h2, connectCallCount, armCount]
  | pingTick sOk =>
      simp only [step, pingTick]
      refine ⟨?_, ?_, ?_, ?_⟩ <;>
        (split <;>
          first
            | (split <;>
                first
                  | (split <;>
                      simp [h1, h2, connectCallCount, armCount, isConnectCallFx,
                        isArmTimer, List.countP_cons])
                  | simp [h1, h2, connectCallCount, armCount])
            | simp [h1, h2, connectCallCount, armCount])
  | reconnectFire =>
      simp [step, h1, h2, connectCallCount, armCount]
  | disconnectCalled =>
      rcases hrt : c.reconnectTimeout with _ | dd <;>
        cases hp : c.pingActive <;> cases hsp : c.socketPresent <;>
        simp [step, disconnect, hrt, hp, hsp, connectCallCount, armCount,
          isConnectCallFx, isArmTimer, List.countP_append, List.countP_cons]

/-- Invariant run: after the stop flag is cleared with no pending timer,
no event sequence ever re-enables reconnection, arms a reconnect timer
or calls connect() internally. -/
theorem stopped_run (c : Client) (es : List Event)
    (h1 : c.shouldReconnect = false) (h2 : c.reconnectTimeout = none) :
    (run c es).1.shouldReconnect = false ∧ (run c es).1.reconnectTimeout = none ∧
    connectCallCount (run c es).2 = 0 ∧ armCount (run c es).2 = 0 := by
  induction es generalizing c with
  | nil => simp [run, connectCallCount, armCount, h1, h2]
  | cons e es ih =>
      obtain ⟨a1, a2, a3, a4⟩ := stopped_step c e h1 h2
      obtain ⟨b1, b2, b3, b4⟩ := ih (step c e).1 a1 a2
      have hres : run c (e :: es)
          = ((run (step c e).1 es).1, (step c e).2 ++ (run (step c e).1 es).2) := rfl
      refine ⟨b1, b2, ?_, ?_⟩
      · rw [hres]
        simp only [connectCallCount, List.countP_append] at a3 b3 ⊢
        omega
      · rw [hres]
        simp only [armCount, List.countP_append] at a4 b4 ⊢
        omega

/-- Claim C5: disconnect() is callable from any state and idempotent —
a second call in succession changes nothing and emits no effect, the
keepalive and reconnect timers are left fully cancelled, the stop flag
cleared, a pending reconnect timer can no longer fire and a running ping
can no longer tick, and no later event sequence ever produces an
internal connect() call or arms a reconnect timer. -/
theorem C5_disconnect_idempotent_and_suppressing
    (c : Client) (es : List Event) (sOk : Bool) :
    (step (step c Event.disconnectCalled).1 Event.disconnectCalled).1
      = (step c Event.disconnectCalled).1 ∧
    (step c Event.disconnectCalled).1.reconnectTimeout = none ∧
    (step c Event.disconnectCalled).1.pingActive = false ∧
    (step c Event.disconnectCalled).1.shouldReconnect = false ∧
    (step (step c Event.disconnectCalled).1 Event.disconnectCalled).2 = [] ∧
    (step (step c Event.disconnectCalled).1 Event.reconnectFire).2 = [] ∧
    (step (step c Event.disconnectCalled).1 (Event.pingTick sOk)).2 = [] ∧
    connectCallCount (run (step c Event.disconnectCalled).1 es).2 = 0 ∧
    armCount (run (step c Event.disconnectCalled).1 es).2 = 0 := by
  obtain ⟨-, -, k3, k4⟩ := stopped_run (step c Event.disconnectCalled).1 es rfl rfl
  exact ⟨rfl, rfl, rfl, rfl, rfl, rfl, by simp [step, pingTick, disconnect], k3, k4⟩

/-- Claim C9: disconnect() permanently disables automatic reconnection
for the instance: connect() never touches the stop flag, and after a
disconnect() call any event sequence — including further connect()
invocations, opens and closes — leaves the stop flag cleared, never arms
a reconnect timer and never calls connect() internally. -/
theorem C9_disconnect_permanently_disables_reconnect
    (c : Client) (es : List Event) (t : Bool) :
    (step c (Event.connectCalled t)).1.shouldReconnect = c.shouldReconnect ∧
    (run (step c Event.disconnectCalled).1 es).1.shouldReconnect = false ∧
    (run (step c Event.disconnectCalled).1 es).1.reconnectTimeout = none ∧
    armCount (run (step c Event.disconnectCalled).1 es).2 = 0 ∧
    connectCallCount (run (step c Event.disconnectCalled).1 es).2 = 0 := by
  obtain ⟨k1, k2, k3, k4⟩ := stopped_run (step c Event.disconnectCalled).1 es rfl rfl
  refine ⟨?_, k1, k2, k4, k3⟩
  cases t <;> simp [step, connectCall]

/-- Claim C10: on the primary path bytesReceived accumulates the
payload's declared imageLength, never the actual byte length of
blobData; in particular a payload whose blobData is null still
increments imagesReceived by 1 and adds its declared imageLength to
bytesReceived, while nothing is persisted for it. -/
theorem C10_bytes_accumulates_declared_imageLength
    (c : Client) (now : Nat) (wOk : Bool) (p : Payload)
    (jobId : String) (len ts : Nat) (ext mime : String) :
    (processImage c now wOk p).1.stats.bytesReceived
      = c.stats.bytesReceived + p.imageLength ∧
    (processImage c now wOk
        { jobId := jobId, blobData := none, imageLength := len
        , fileExtension := ext, mimeType := mime, timestamp := ts }).1.stats.imagesReceived
      = c.stats.imagesReceived + 1 ∧
    (processImage c now wOk
        { jobId := jobId, blobData := none, imageLength := len
        , fileExtension := ext, mimeType := mime, timestamp := ts }).1.stats.bytesReceived
      = c.stats.bytesReceived + len ∧
    (processImage c now wOk
        { jobId := jobId, blobData := none, imageLength := len
        , fileExtension := ext, mimeType := mime, timestamp := ts }).2
      = [Effect.statsUpdate] := by
  refine ⟨?_, ?_, ?_, ?_⟩ <;>
    rcases hd : c.options.saveDirectory with _ | dir <;>
      try rcases hb : p.blobData with _ | blob
  all_goals simp [processImage, hd] <;> try simp [hb]
  all_goals try (split <;> rfl)

/-- Claim C7: persistence is a no-op success when the payload's image
bytes are absent or no save directory is configured; otherwise the
directory is ensured to exist before every write and the file name is
timestamp_jobId.extension on the primary path and timestamp.extension on
the legacy path. -/
theorem C7_persistence_noop_and_deterministic_names
    (c : Client) (now : Nat) (wOk : Bool) (p : Payload)
    (dir d2 : String) (blob img : List Nat) (m : ImageMetadata)
    (hd : c.options.saveDirectory = some dir) (hb : p.blobData = some blob)
    (ht : p.timestamp ≠ 0) :
    (processImage { c with options := { c.options with saveDirectory := none } } now wOk p).2
      = [Effect.statsUpdate] ∧
    (processImage c now wOk { p with blobData := none }).2 = [Effect.statsUpdate] ∧
    (processImage c now true p).2
      = [Effect.statsUpdate, Effect.mkdir dir,
         Effect.fileWrite
           (dir ++ "/" ++ (toString p.timestamp ++ "_" ++ p.jobId ++ "." ++ p.fileExtension))
           blob] ∧
    legacySaveImage d2 true img m
      = [Effect.mkdir d2,
         Effect.fileWrite
           (d2 ++ "/" ++ (toString m.timestamp ++ "." ++ m.format.getD (detectImageFormat img)))
           img] := by
  refine ⟨?_, ?_, ?_, ?_⟩
  · rcases hbp : p.blobData with _ | blob2 <;> simp [processImage, hbp]
  · simp [processImage, hd]
  · simp [processImage, hd, hb, ht]
  · simp [legacySaveImage]

/-- Witness for claim C7 at a concrete client, payload and legacy
metadata. -/
theorem C7_persistence_noop_and_deterministic_names_witness :
    (processImage
        { sampleClient with options := { sampleClient.options with saveDirectory := none } }
        0 true samplePayload).2
      = [Effect.statsUpdate] ∧
    (processImage sampleClient 0 true { samplePayload with blobData := none }).2
      = [Effect.statsUpdate] ∧
    (processImage sampleClient 0 true samplePayload).2
      = [Effect.statsUpdate, Effect.mkdir "./received_images",
         Effect.fileWrite
           ("./received_images" ++ "/" ++
             (toString samplePayload.timestamp ++ "_" ++ samplePayload.jobId ++ "." ++
               samplePayload.fileExtension))
           [1, 2, 3]] ∧
    legacySaveImage "./images" true [1, 2, 3] { timestamp := 1000, format := some "png" }
      = [Effect.mkdir "./images",
         Effect.fileWrite
           ("./images" ++ "/" ++
             (toString (ImageMetadata.timestamp { timestamp := 1000, format := some "png" }) ++
               "." ++
               Option.getD (ImageMetadata.format { timestamp := 1000, format := some "png" })
                 (detectImageFormat [1, 2, 3])))
           [1, 2, 3]] :=
  C7_persistence_noop_and_deterministic_names sampleClient 0 true samplePayload
    "./received_images" "./images" [1, 2, 3] [1, 2, 3]
    { timestamp := 1000, format := some "png" } rfl rfl (by decide)

/-- A one-object heap whose internal stats record sits at reference 0. -/
def sampleHeap : StatsHeap := { mem := fun _ => initialStats, next := 1, internalRef := 0 }

/-- A caller-side mutation of a stats record. -/
def sampleMutator : ConnectionStats → ConnectionStats :=
  fun s => { s with imagesReceived := 42 }

/-- An internal-side mutation of a stats record. -/
def sampleMutator2 : ConnectionStats → ConnectionStats :=
  fun s => { s with bytesReceived := 7 }

/-- Claim C8: getStats returns an independent copy, not a live
reference: the returned reference is fresh, its object carries the
internal field values at call time, mutating any field through the
returned reference leaves the internal stats unchanged, and an internal
update after the call leaves the previously returned snapshot
unchanged. -/
theorem C8_getStats_returns_independent_copy
    (h : StatsHeap) (f g : ConnectionStats → ConnectionStats)
    (hv : h.internalRef < h.next) :
    (getStats h).2 ≠ h.internalRef ∧
    (getStats h).1.internalRef = h.internalRef ∧
    readRef (getStats h).1 (getStats h).2 = readRef h h.internalRef ∧
    readRef (writeRef (getStats h).1 (getStats h).2 f) h.internalRef
      = readRef h h.internalRef ∧
    readRef (writeRef (getStats h).1 h.internalRef g) (getStats h).2
      = readRef h h.internalRef := by
  have hne : h.next ≠ h.internalRef := Nat.ne_of_gt hv
  have hne2 : h.internalRef ≠ h.next := Nat.ne_of_lt hv
  refine ⟨hne, rfl, ?_, ?_, ?_⟩
  · simp [getStats, readRef, upd]
  · simp [getStats, readRef, writeRef, upd, hne, hne2]
  · simp [getStats, readRef, writeRef, upd, hne, hne2]

/-- Witness for claim C8 at a concrete one-object heap and concrete
mutations. -/
theorem C8_getStats_returns_independent_copy_witness :
    sampleHeap.internalRef < sampleHeap.next ∧
    ((getStats sampleHeap).2 ≠ sampleHeap.internalRef ∧
     (getStats sampleHeap).1.internalRef = sampleHeap.internalRef ∧
     readRef (getStats sampleHeap).1 (getStats sampleHeap).2
       = readRef sampleHeap sampleHeap.internalRef ∧
     readRef (writeRef (getStats sampleHeap).1 (getStats sampleHeap).2 sampleMutator)
         sampleHeap.internalRef
       = readRef sampleHeap sampleHeap.internalRef ∧
     readRef (writeRef (getStats sampleHeap).1 sampleHeap.internalRef sampleMutator2)
         (getStats sampleHeap).2
       = readRef sampleHeap sampleHeap.internalRef) :=
  ⟨by decide, C8_getStats_returns_independent_copy sampleHeap sampleMutator sampleMutator2
    (by decide)⟩

end PixelSocket
